import Mathlib

/-!
Shallow embedding of the G-band photometry correction function
(correct_gband, src/GCorrectionCode.ipynb) for Gaia EDR3 sources
with 2-parameter or 6-parameter astrometric solutions.

Floating-point values are modelled exactly: a value is either NaN or a
rational. Comparisons with NaN are false (IEEE semantics), arithmetic
propagates NaN. The base-10 logarithm is kept abstract as a function
parameter; the only fact ever assumed about it is log10 1 = 0, which
holds exactly in IEEE double arithmetic (np.log10(1.0) == 0.0).
-/

/-- A float64 value: NaN or a finite value modelled exactly as a rational. -/
inductive Flt where
  | nan : Flt
  | val : ℚ → Flt
  deriving DecidableEq, Repr

namespace Flt

/-- NaN test, as np.isnan. -/
def isNaN : Flt → Bool
  | .nan => true
  | .val _ => false

/-- Strict less-than; false whenever an operand is NaN (IEEE). -/
def ltB : Flt → Flt → Bool
  | .val a, .val b => decide (a < b)
  | _, _ => false

/-- Less-or-equal; false whenever an operand is NaN (IEEE). -/
def leB : Flt → Flt → Bool
  | .val a, .val b => decide (a ≤ b)
  | _, _ => false

/-- Subtraction with NaN propagation. -/
def sub : Flt → Flt → Flt
  | .val a, .val b => .val (a - b)
  | _, _ => .nan

/-- Multiplication with NaN propagation. -/
def mul : Flt → Flt → Flt
  | .val a, .val b => .val (a * b)
  | _, _ => .nan

end Flt

/-- One catalog source: the four per-element inputs of correct_gband. -/
structure GSource where
  bp_rp : Flt
  astrometric_params_solved : ℤ
  phot_g_mean_mag : Flt
  phot_g_mean_flux : Flt
  deriving DecidableEq, Repr

/-- Mask do_not_correct: np.isnan(bp_rp) | (phot_g_mean_mag < 13) | (astrometric_params_solved == 31). -/
def do_not_correct (s : GSource) : Bool :=
  s.bp_rp.isNaN || Flt.ltB s.phot_g_mean_mag (.val 13)
    || (s.astrometric_params_solved == 31)

/-- Mask bright_correct: not do_not_correct and 13 <= mag <= 16. -/
def bright_correct (s : GSource) : Bool :=
  !(do_not_correct s) && Flt.leB (.val 13) s.phot_g_mean_mag
    && Flt.leB s.phot_g_mean_mag (.val 16)

/-- Mask faint_correct: not do_not_correct and mag > 16. -/
def faint_correct (s : GSource) : Bool :=
  !(do_not_correct s) && Flt.ltB (.val 16) s.phot_g_mean_mag

/-- Clamp of a finite value to the interval of np.clip(x, lo, hi). -/
def clipQ (lo hi x : ℚ) : ℚ := min (max x lo) hi

/-- Clipped colour bp_rp_c = np.clip(bp_rp, 0.25, 3.0); NaN is preserved by np.clip. -/
def bp_rp_c (x : Flt) : Flt :=
  match x with
  | .nan => .nan
  | .val q => .val (clipQ 0.25 3 q)

/-- Faint-regime cubic: 1.00525 - 0.02323 c + 0.01740 c^2 - 0.00253 c^3. -/
def faint_poly (c : ℚ) : ℚ :=
  1.00525 - 0.02323 * c + 0.01740 * c ^ 2 - 0.00253 * c ^ 3

/-- Bright-regime cubic: 1.00876 - 0.02540 c + 0.01747 c^2 - 0.00277 c^3. -/
def bright_poly (c : ℚ) : ℚ :=
  1.00876 - 0.02540 * c + 0.01747 * c ^ 2 - 0.00277 * c ^ 3

/-- Per-element correction factor: initialised to 1 by np.ones_like, overwritten at
faint_correct entries by the faint cubic of the clipped colour and at bright_correct
entries by the bright cubic. The NaN branches mirror what numpy would write there;
they are unreachable because the masks exclude NaN colours. -/
def correction_factor (s : GSource) : Flt :=
  if faint_correct s then
    match bp_rp_c s.bp_rp with
    | .nan => .nan
    | .val c => .val (faint_poly c)
  else if bright_correct s then
    match bp_rp_c s.bp_rp with
    | .nan => .nan
    | .val c => .val (bright_poly c)
  else .val 1

/-- Corrected magnitude: phot_g_mean_mag - 2.5 * np.log10(correction_factor). -/
def gmag_corrected (log10 : Flt → Flt) (s : GSource) : Flt :=
  Flt.sub s.phot_g_mean_mag (Flt.mul (.val 2.5) (log10 (correction_factor s)))

/-- Corrected flux: phot_g_mean_flux * correction_factor. -/
def gflux_corrected (s : GSource) : Flt :=
  Flt.mul s.phot_g_mean_flux (correction_factor s)

/-- Both per-element outputs of the correction. -/
def correct_elem (log10 : Flt → Flt) (s : GSource) : Flt × Flt :=
  (gmag_corrected log10 s, gflux_corrected s)

/-- An argument of correct_gband: a scalar (np.isscalar true, converted to a
0-d array of shape ()) or a sequence (a 1-d array of some length). -/
inductive Inp (α : Type) where
  | scalar : α → Inp α
  | arr : List α → Inp α
  deriving DecidableEq, Repr

/-- Array shape: () for a scalar made 0-d, (n) for a length-n sequence. -/
def Inp.shape : Inp α → Option Nat
  | .scalar _ => none
  | .arr l => some l.length

/-- Whether np.isscalar holds of the argument. -/
def Inp.isScalar : Inp α → Bool
  | .scalar _ => true
  | .arr _ => false

/-- Element-wise pairing of the four input arrays into sources. -/
def zip4 : List Flt → List ℤ → List Flt → List Flt → List GSource
  | c :: cs, a :: sts, m :: ms, f :: fs => ⟨c, a, m, f⟩ :: zip4 cs sts ms fs
  | _, _, _, _ => []

/-- Message of the ValueError raised on a shape mismatch. -/
def shapeErrMsg : String := "Function parameters must be of the same shape!"

/-- The correct_gband function. Scalars are converted to 0-d values of shape ();
if the four shapes are not all equal a ValueError (ShapeMismatch) is raised,
otherwise each element is corrected independently. The final error branch is
unreachable: equal shapes force the four arguments onto the same constructor. -/
def correct_gband (log10 : Flt → Flt) (bp_rp : Inp Flt)
    (astrometric_params_solved : Inp ℤ) (phot_g_mean_mag : Inp Flt)
    (phot_g_mean_flux : Inp Flt) : Except String (Inp Flt × Inp Flt) :=
  if bp_rp.shape == astrometric_params_solved.shape
      && astrometric_params_solved.shape == phot_g_mean_mag.shape
      && phot_g_mean_mag.shape == phot_g_mean_flux.shape then
    match bp_rp, astrometric_params_solved, phot_g_mean_mag, phot_g_mean_flux with
    | .scalar c, .scalar a, .scalar m, .scalar f =>
      .ok (.scalar (correct_elem log10 ⟨c, a, m, f⟩).1,
           .scalar (correct_elem log10 ⟨c, a, m, f⟩).2)
    | .arr cs, .arr sts, .arr ms, .arr fs =>
      .ok (.arr ((zip4 cs sts ms fs).map fun s => (correct_elem log10 s).1),
           .arr ((zip4 cs sts ms fs).map fun s => (correct_elem log10 s).2))
    | _, _, _, _ => .error shapeErrMsg
  else .error shapeErrMsg

/-! Helper lemmas shared by several claims. -/

/-- Subtracting anything from NaN yields NaN. -/
theorem Flt.nan_sub (y : Flt) : Flt.sub .nan y = .nan := rfl

/-- Where the do-not-correct mask holds the factor keeps its initial value 1. -/
theorem correction_factor_of_dnc (s : GSource) (h : do_not_correct s = true) :
    correction_factor s = .val 1 := by
  simp [correction_factor, faint_correct, bright_correct, h]

/-- Multiplying by a factor of exactly 1 returns the flux unchanged, NaN included. -/
theorem gflux_of_factor_one (s : GSource) (h : correction_factor s = .val 1) :
    gflux_corrected s = s.phot_g_mean_flux := by
  rw [gflux_corrected, h]
  cases s.phot_g_mean_flux <;> simp [Flt.mul]

/-- With log10 1 = 0, a factor of exactly 1 returns the magnitude unchanged. -/
theorem gmag_of_factor_one (log10 : Flt → Flt) (hlog : log10 (.val 1) = .val 0)
    (s : GSource) (h : correction_factor s = .val 1) :
    gmag_corrected log10 s = s.phot_g_mean_mag := by
  rw [gmag_corrected, h, hlog]
  cases s.phot_g_mean_mag <;> simp [Flt.sub, Flt.mul]

/-- C2: for every element whose colour is NaN, or whose magnitude is below 13, or
whose solution type equals 31, the correction factor is exactly 1 and both outputs
equal the corresponding inputs exactly. -/
theorem C2_no_correction_identity (log10 : Flt → Flt) (hlog : log10 (.val 1) = .val 0)
    (s : GSource)
    (h : s.bp_rp.isNaN = true ∨ Flt.ltB s.phot_g_mean_mag (.val 13) = true ∨
      s.astrometric_params_solved = 31) :
    correction_factor s = .val 1 ∧ gmag_corrected log10 s = s.phot_g_mean_mag ∧
      gflux_corrected s = s.phot_g_mean_flux := by
  have hd : do_not_correct s = true := by
    rcases h with h | h | h <;> simp [do_not_correct, h]
  have hf := correction_factor_of_dnc s hd
  exact ⟨hf, gmag_of_factor_one log10 hlog s hf, gflux_of_factor_one s hf⟩

/-- Witness for C2 at a NaN-colour element. -/
theorem C2_witness :
    correction_factor ⟨.nan, 95, .val 14, .val 100⟩ = .val 1 ∧
    gmag_corrected (fun _ => .val 0) ⟨.nan, 95, .val 14, .val 100⟩ = .val 14 ∧
    gflux_corrected ⟨.nan, 95, .val 14, .val 100⟩ = .val 100 :=
  C2_no_correction_identity (fun _ => .val 0) rfl ⟨.nan, 95, .val 14, .val 100⟩
    (Or.inl rfl)

/-- C10: an element with NaN magnitude, non-NaN colour and solution type other
than 31 matches none of the masks, so the factor defaults to exactly 1 and the
flux passes through unchanged, while the corrected magnitude is NaN. -/
theorem C10_nan_magnitude_flux_preserved (log10 : Flt → Flt) (s : GSource)
    (hm : s.phot_g_mean_mag = .nan) (hc : s.bp_rp.isNaN = false)
    (ha : s.astrometric_params_solved ≠ 31) :
    do_not_correct s = false ∧ bright_correct s = false ∧ faint_correct s = false ∧
      correction_factor s = .val 1 ∧ gflux_corrected s = s.phot_g_mean_flux ∧
      (gmag_corrected log10 s).isNaN = true := by
  have hd : do_not_correct s = false := by
    simp [do_not_correct, hc, hm, Flt.ltB, ha]
  have hb : bright_correct s = false := by
    simp [bright_correct, hm, Flt.leB]
  have hfa : faint_correct s = false := by
    simp [faint_correct, hm, Flt.ltB]
  have hfac : correction_factor s = .val 1 := by
    simp [correction_factor, hb, hfa]
  refine ⟨hd, hb, hfa, hfac, gflux_of_factor_one s hfac, ?_⟩
  rw [gmag_corrected, hm, Flt.nan_sub]
  rfl

/-- Witness for C10 at a concrete NaN-magnitude element. -/
theorem C10_witness :
    do_not_correct ⟨.val 1, 95, .nan, .val 50⟩ = false ∧
    bright_correct ⟨.val 1, 95, .nan, .val 50⟩ = false ∧
    faint_correct ⟨.val 1, 95, .nan, .val 50⟩ = false ∧
    correction_factor ⟨.val 1, 95, .nan, .val 50⟩ = .val 1 ∧
    gflux_corrected ⟨.val 1, 95, .nan, .val 50⟩ = .val 50 ∧
    (gmag_corrected (fun _ => .val 0) ⟨.val 1, 95, .nan, .val 50⟩).isNaN = true :=
  C10_nan_magnitude_flux_preserved (fun _ => .val 0) ⟨.val 1, 95, .nan, .val 50⟩
    rfl rfl (by decide)

/-- C4 counterexample: at magnitude exactly 13 with colour 1 and solution type 95
the element is NOT in the do-not-correct class: the bright mask holds, the factor
is the bright cubic value 0.99806 rather than 1, and the flux is changed. -/
theorem C4_counterexample :
    do_not_correct ⟨.val 1, 95, .val 13, .val 100⟩ = false ∧
    bright_correct ⟨.val 1, 95, .val 13, .val 100⟩ = true ∧
    correction_factor ⟨.val 1, 95, .val 13, .val 100⟩ = .val 0.99806 ∧
    gflux_corrected ⟨.val 1, 95, .val 13, .val 100⟩ = .val 99.806 ∧
    Flt.val (0.99806 : ℚ) ≠ .val 1 ∧ Flt.val (99.806 : ℚ) ≠ .val 100 := by
  norm_num [do_not_correct, bright_correct, faint_correct, correction_factor,
    gflux_corrected, Flt.isNaN, Flt.ltB, Flt.leB, Flt.mul, bp_rp_c, clipQ,
    faint_poly, bright_poly]

/-- C5 counterexample: with NaN magnitude, non-NaN colour and solution type 95,
none of the three classifications holds, so they are not exhaustive over all
float inputs. -/
theorem C5_counterexample :
    do_not_correct ⟨.val 0, 95, .nan, .val 1⟩ = false ∧
    bright_correct ⟨.val 0, 95, .nan, .val 1⟩ = false ∧
    faint_correct ⟨.val 0, 95, .nan, .val 1⟩ = false := by
  norm_num [do_not_correct, bright_correct, faint_correct, Flt.isNaN, Flt.ltB, Flt.leB]

/-- C6 counterexample: on the scenario colour 0.5, solution type 95, magnitude 18,
flux 1000 the factor is exactly 0.99766875, whose decimal expansion does not begin
0.997566, and the corrected flux 997.66875 is not within relative 1e-5 of the
claimed 997.566. -/
theorem C6_counterexample :
    correction_factor ⟨.val 0.5, 95, .val 18, .val 1000⟩ = .val 0.99766875 ∧
    gflux_corrected ⟨.val 0.5, 95, .val 18, .val 1000⟩ = .val 997.66875 ∧
    ¬ ((0.997566 : ℚ) ≤ 0.99766875 ∧ (0.99766875 : ℚ) < 0.997567) ∧
    ¬ ((997.66875 : ℚ) - 997.566 ≤ (1e-5 : ℚ) * 997.566) := by
  norm_num [correction_factor, faint_correct, bright_correct, do_not_correct,
    gflux_corrected, Flt.isNaN, Flt.ltB, Flt.leB, Flt.mul, bp_rp_c, clipQ,
    faint_poly, bright_poly]

/-- C1: for every element not classified do-not-correct, with finite colour q, a
magnitude above 16 gives the faint-regime cubic of the clamped colour as factor, a
magnitude between 13 and 16 gives the bright-regime cubic of the clamped colour,
and the outputs are magnitude - 2.5 log10 factor and flux times factor. -/
theorem C1_regime_factor_and_outputs (log10 : Flt → Flt) (s : GSource) (q : ℚ)
    (hc : s.bp_rp = .val q) (h : do_not_correct s = false) :
    (Flt.ltB (.val 16) s.phot_g_mean_mag = true →
      correction_factor s = .val (faint_poly (clipQ 0.25 3 q))) ∧
    ((Flt.leB (.val 13) s.phot_g_mean_mag && Flt.leB s.phot_g_mean_mag (.val 16)) = true →
      correction_factor s = .val (bright_poly (clipQ 0.25 3 q))) ∧
    gmag_corrected log10 s =
      Flt.sub s.phot_g_mean_mag (Flt.mul (.val 2.5) (log10 (correction_factor s))) ∧
    gflux_corrected s = Flt.mul s.phot_g_mean_flux (correction_factor s) := by
  refine ⟨?_, ?_, rfl, rfl⟩
  · intro hf
    have hfc : faint_correct s = true := by simp [faint_correct, h, hf]
    simp [correction_factor, hfc, hc, bp_rp_c]
  · intro hb
    rw [Bool.and_eq_true] at hb
    obtain ⟨h13, h16⟩ := hb
    have hnf : faint_correct s = false := by
      cases hm : s.phot_g_mean_mag with
      | nan => simp [faint_correct, Flt.ltB, hm]
      | val m =>
        rw [hm] at h16
        simp only [Flt.leB, decide_eq_true_eq] at h16
        simp [faint_correct, Flt.ltB, hm, not_lt.mpr h16]
    have hbc : bright_correct s = true := by
      simp [bright_correct, h, h13, h16]
    simp [correction_factor, hnf, hbc, hc, bp_rp_c]

/-- Witness for C1 at a faint-regime element. -/
theorem C1_witness :
    correction_factor ⟨.val 0.5, 95, .val 18, .val 1000⟩ =
      .val (faint_poly (clipQ 0.25 3 0.5)) :=
  (C1_regime_factor_and_outputs (fun _ => .val 0) ⟨.val 0.5, 95, .val 18, .val 1000⟩
    0.5 rfl (by norm_num [do_not_correct, Flt.isNaN, Flt.ltB])).1
    (by norm_num [Flt.ltB])

/-- C4 (amended): at the regime boundaries, an element with magnitude exactly 13
(finite colour, solution type other than 31) is NOT in the do-not-correct class
but is corrected with the bright-regime cubic, and so is an element with
magnitude exactly 16. -/
theorem C4_boundary_regimes (s : GSource) (q : ℚ) (hc : s.bp_rp = .val q)
    (ha : s.astrometric_params_solved ≠ 31) :
    (s.phot_g_mean_mag = .val 13 →
      do_not_correct s = false ∧ bright_correct s = true ∧
      correction_factor s = .val (bright_poly (clipQ 0.25 3 q))) ∧
    (s.phot_g_mean_mag = .val 16 →
      do_not_correct s = false ∧ bright_correct s = true ∧
      correction_factor s = .val (bright_poly (clipQ 0.25 3 q))) := by
  constructor <;> intro hm <;>
    refine ⟨?_, ?_, ?_⟩ <;>
    norm_num [do_not_correct, bright_correct, faint_correct, correction_factor,
      Flt.isNaN, Flt.ltB, Flt.leB, hc, hm, ha, bp_rp_c]

/-- Witness for C4 at magnitude exactly 13. -/
theorem C4_witness :
    do_not_correct ⟨.val 1, 95, .val 13, .val 100⟩ = false ∧
    bright_correct ⟨.val 1, 95, .val 13, .val 100⟩ = true ∧
    correction_factor ⟨.val 1, 95, .val 13, .val 100⟩ =
      .val (bright_poly (clipQ 0.25 3 1)) :=
  (C4_boundary_regimes ⟨.val 1, 95, .val 13, .val 100⟩ 1 rfl (by decide)).1 rfl

/-- C5 (amended): the three classifications are pairwise mutually exclusive for
all inputs, and they are exhaustive whenever the magnitude is not NaN; the
counterexample shows exhaustiveness fails for NaN magnitudes. -/
theorem C5_classification_trichotomy (s : GSource) :
    (¬ (do_not_correct s = true ∧ bright_correct s = true) ∧
     ¬ (do_not_correct s = true ∧ faint_correct s = true) ∧
     ¬ (bright_correct s = true ∧ faint_correct s = true)) ∧
    (s.phot_g_mean_mag.isNaN = false →
      do_not_correct s = true ∨ bright_correct s = true ∨ faint_correct s = true) := by
  constructor
  · refine ⟨?_, ?_, ?_⟩
    · rintro ⟨h1, h2⟩
      simp [bright_correct, h1] at h2
    · rintro ⟨h1, h2⟩
      simp [faint_correct, h1] at h2
    · rintro ⟨h1, h2⟩
      simp only [bright_correct, faint_correct, Bool.and_eq_true] at h1 h2
      cases hm : s.phot_g_mean_mag with
      | nan =>
        rw [hm] at h1
        simp [Flt.leB] at h1
      | val m =>
        rw [hm] at h1 h2
        simp only [Flt.leB, Flt.ltB, decide_eq_true_eq] at h1 h2
        linarith [h1.2, h2.2]
  · intro hnm
    cases hm : s.phot_g_mean_mag with
    | nan =>
      rw [hm] at hnm
      simp [Flt.isNaN] at hnm
    | val m =>
      by_cases hd : do_not_correct s = true
      · exact Or.inl hd
      · have hd0 : do_not_correct s = false := by simpa using hd
        have h13 : (13 : ℚ) ≤ m := by
          by_contra hlt
          push_neg at hlt
          exact hd (by simp [do_not_correct, hm, Flt.ltB, hlt])
        rcases le_or_lt m 16 with h16 | h16
        · exact Or.inr (Or.inl (by simp [bright_correct, hd0, hm, Flt.leB, h13, h16]))
        · exact Or.inr (Or.inr (by simp [faint_correct, hd0, hm, Flt.ltB, h16]))

/-- Witness for C5 exhaustiveness at a finite magnitude. -/
theorem C5_witness :
    do_not_correct ⟨.val 1, 95, .val 18, .val 10⟩ = true ∨
    bright_correct ⟨.val 1, 95, .val 18, .val 10⟩ = true ∨
    faint_correct ⟨.val 1, 95, .val 18, .val 10⟩ = true :=
  (C5_classification_trichotomy ⟨.val 1, 95, .val 18, .val 10⟩).2 rfl

/-- Two finite colours with the same clipped value give the same factor. -/
theorem correction_factor_clip_congr (a : ℤ) (m f : Flt) (q r : ℚ)
    (h : clipQ 0.25 3 q = clipQ 0.25 3 r) :
    correction_factor ⟨.val q, a, m, f⟩ = correction_factor ⟨.val r, a, m, f⟩ := by
  simp [correction_factor, faint_correct, bright_correct, do_not_correct, Flt.isNaN,
    bp_rp_c, h]

/-- C7: colour clipping saturates. With solution type, magnitude and flux fixed,
any colour at least 3 gives the same factor and outputs as colour exactly 3, and
any colour at most 0.25 gives the same factor and outputs as colour exactly 0.25. -/
theorem C7_clip_saturation (log10 : Flt → Flt) (a : ℤ) (m f : Flt) (q : ℚ) :
    ((3 : ℚ) ≤ q →
      correction_factor ⟨.val q, a, m, f⟩ = correction_factor ⟨.val 3, a, m, f⟩ ∧
      gmag_corrected log10 ⟨.val q, a, m, f⟩ = gmag_corrected log10 ⟨.val 3, a, m, f⟩ ∧
      gflux_corrected ⟨.val q, a, m, f⟩ = gflux_corrected ⟨.val 3, a, m, f⟩) ∧
    (q ≤ (0.25 : ℚ) →
      correction_factor ⟨.val q, a, m, f⟩ = correction_factor ⟨.val 0.25, a, m, f⟩ ∧
      gmag_corrected log10 ⟨.val q, a, m, f⟩ = gmag_corrected log10 ⟨.val 0.25, a, m, f⟩ ∧
      gflux_corrected ⟨.val q, a, m, f⟩ = gflux_corrected ⟨.val 0.25, a, m, f⟩) := by
  have high : (3 : ℚ) ≤ q → clipQ 0.25 3 q = clipQ 0.25 3 3 := by
    intro h
    unfold clipQ
    rw [max_eq_left (by linarith), min_eq_right h, max_eq_left (by norm_num), min_self]
  have low : q ≤ (0.25 : ℚ) → clipQ 0.25 3 q = clipQ 0.25 3 0.25 := by
    intro h
    unfold clipQ
    rw [max_eq_right h, max_self]
  constructor <;> intro h
  · have hfac := correction_factor_clip_congr a m f q 3 (high h)
    exact ⟨hfac, by rw [gmag_corrected, gmag_corrected, hfac],
      by rw [gflux_corrected, gflux_corrected, hfac]⟩
  · have hfac := correction_factor_clip_congr a m f q 0.25 (low h)
    exact ⟨hfac, by rw [gmag_corrected, gmag_corrected, hfac],
      by rw [gflux_corrected, gflux_corrected, hfac]⟩

/-- Witness for C7: colour 5 saturates to the same factor as colour 3. -/
theorem C7_witness :
    correction_factor ⟨.val 5, 95, .val 18, .val 10⟩ =
      correction_factor ⟨.val 3, 95, .val 18, .val 10⟩ :=
  ((C7_clip_saturation (fun _ => .val 0) 95 (.val 18) (.val 10) 5).1 (by norm_num)).1

/-- C3: on four sequence inputs the call fails with the shape-mismatch error, and
produces no output, exactly when the four lengths are not all equal; with equal
lengths it never raises, whatever the element values, and returns the element-wise
corrected arrays. -/
theorem C3_shape_mismatch_iff (log10 : Flt → Flt) (cs : List Flt) (sts : List ℤ)
    (ms fs : List Flt) :
    (correct_gband log10 (.arr cs) (.arr sts) (.arr ms) (.arr fs) = .error shapeErrMsg ↔
      ¬ (cs.length = sts.length ∧ sts.length = ms.length ∧ ms.length = fs.length)) ∧
    (cs.length = sts.length ∧ sts.length = ms.length ∧ ms.length = fs.length →
      correct_gband log10 (.arr cs) (.arr sts) (.arr ms) (.arr fs) =
        .ok (.arr ((zip4 cs sts ms fs).map fun s => (correct_elem log10 s).1),
             .arr ((zip4 cs sts ms fs).map fun s => (correct_elem log10 s).2))) := by
  by_cases h : cs.length = sts.length ∧ sts.length = ms.length ∧ ms.length = fs.length
  · obtain ⟨h1, h2, h3⟩ := h
    constructor
    · simp [correct_gband, Inp.shape, h1, h2, h3]
    · intro _
      simp [correct_gband, Inp.shape, h1, h2, h3]
  · have hcond : ¬ ((Inp.arr cs : Inp Flt).shape == (Inp.arr sts : Inp ℤ).shape
        && (Inp.arr sts : Inp ℤ).shape == (Inp.arr ms : Inp Flt).shape
        && (Inp.arr ms : Inp Flt).shape == (Inp.arr fs : Inp Flt).shape) = true := by
      simp only [Inp.shape, Bool.and_eq_true, beq_iff_eq, Option.some.injEq]
      intro hc
      exact h ⟨hc.1.1, hc.1.2, hc.2⟩
    constructor
    · rw [correct_gband, if_neg hcond]
      simp [h]
    · intro hh
      exact absurd hh h

/-- Witness for C3 on matching singleton arrays. -/
theorem C3_witness :
    correct_gband (fun _ => .val 0) (.arr [.val 1]) (.arr [95]) (.arr [.val 14])
      (.arr [.val 10]) =
      .ok (.arr [(correct_elem (fun _ => .val 0) ⟨.val 1, 95, .val 14, .val 10⟩).1],
           .arr [(correct_elem (fun _ => .val 0) ⟨.val 1, 95, .val 14, .val 10⟩).2]) :=
  (C3_shape_mismatch_iff (fun _ => .val 0) [.val 1] [95] [.val 14] [.val 10]).2
    ⟨rfl, rfl, rfl⟩

/-- C9: any call mixing at least one scalar and at least one sequence among the
four arguments fails with the shape-mismatch error, since a scalar becomes a 0-d
array whose shape () never equals the shape of a sequence. -/
theorem C9_mixed_scalar_sequence_rejected (log10 : Flt → Flt) (bp : Inp Flt)
    (st : Inp ℤ) (m f : Inp Flt)
    (hs : bp.isScalar = true ∨ st.isScalar = true ∨ m.isScalar = true ∨
      f.isScalar = true)
    (ha : bp.isScalar = false ∨ st.isScalar = false ∨ m.isScalar = false ∨
      f.isScalar = false) :
    correct_gband log10 bp st m f = .error shapeErrMsg := by
  cases bp <;> cases st <;> cases m <;> cases f <;>
    simp_all [correct_gband, Inp.shape, Inp.isScalar]

/-- Witness for C9: one sequence among three scalars is rejected. -/
theorem C9_witness :
    correct_gband (fun _ => .val 0) (.scalar (.val 1)) (.arr [95, 95])
      (.scalar (.val 14)) (.scalar (.val 10)) = .error shapeErrMsg :=
  C9_mixed_scalar_sequence_rejected (fun _ => .val 0) (.scalar (.val 1)) (.arr [95, 95])
    (.scalar (.val 14)) (.scalar (.val 10)) (Or.inl rfl) (Or.inr (Or.inl rfl))

/-- Length of the element-wise pairing when the four lists have equal lengths. -/
theorem zip4_length (cs : List Flt) (sts : List ℤ) (ms fs : List Flt)
    (h1 : cs.length = sts.length) (h2 : sts.length = ms.length)
    (h3 : ms.length = fs.length) :
    (zip4 cs sts ms fs).length = cs.length := by
  induction cs generalizing sts ms fs with
  | nil => simp [zip4]
  | cons c cs ih =>
    cases sts with
    | nil => simp at h1
    | cons a sts =>
      cases ms with
      | nil => simp at h2
      | cons m ms =>
        cases fs with
        | nil => simp at h3
        | cons f fs =>
          simp only [zip4, List.length_cons]
          rw [ih sts ms fs (by simpa using h1) (by simpa using h2) (by simpa using h3)]

/-- Element i of the pairing collects the i-th entries of the four lists. -/
theorem zip4_get (cs : List Flt) (sts : List ℤ) (ms fs : List Flt) (i : Nat)
    (hc : i < cs.length) (ha : i < sts.length) (hm : i < ms.length)
    (hf : i < fs.length) (hz : i < (zip4 cs sts ms fs).length) :
    (zip4 cs sts ms fs).get ⟨i, hz⟩ =
      ⟨cs.get ⟨i, hc⟩, sts.get ⟨i, ha⟩, ms.get ⟨i, hm⟩, fs.get ⟨i, hf⟩⟩ := by
  induction cs generalizing sts ms fs i with
  | nil => exact absurd hc (by simp)
  | cons c cs ih =>
    cases sts with
    | nil => exact absurd ha (by simp)
    | cons a sts =>
      cases ms with
      | nil => exact absurd hm (by simp)
      | cons m ms =>
        cases fs with
        | nil => exact absurd hf (by simp)
        | cons f fs =>
          cases i with
          | zero => rfl
          | succ i =>
            exact ih sts ms fs i (Nat.lt_of_succ_lt_succ hc) (Nat.lt_of_succ_lt_succ ha)
              (Nat.lt_of_succ_lt_succ hm) (Nat.lt_of_succ_lt_succ hf)
              (by simpa [zip4, Nat.succ_lt_succ_iff] using hz)

/-- Indexing a mapped list applies the function to the indexed element. -/
theorem get_map_eq {α β : Type} (l : List α) (g : α → β) (i : Nat)
    (h1 : i < (l.map g).length) (h2 : i < l.length) :
    (l.map g).get ⟨i, h1⟩ = g (l.get ⟨i, h2⟩) := by
  induction l generalizing i with
  | nil => exact absurd h2 (by simp)
  | cons x xs ih =>
    cases i with
    | zero => rfl
    | succ i =>
      exact ih i (by simpa [Nat.succ_lt_succ_iff] using h1) (Nat.lt_of_succ_lt_succ h2)

/-- On equal-length arrays the call returns the element-wise corrected arrays. -/
theorem correct_gband_arr_eq (log10 : Flt → Flt) (cs : List Flt) (sts : List ℤ)
    (ms fs : List Flt) (h1 : cs.length = sts.length) (h2 : sts.length = ms.length)
    (h3 : ms.length = fs.length) :
    correct_gband log10 (.arr cs) (.arr sts) (.arr ms) (.arr fs) =
      .ok (.arr ((zip4 cs sts ms fs).map fun s => (correct_elem log10 s).1),
           .arr ((zip4 cs sts ms fs).map fun s => (correct_elem log10 s).2)) := by
  simp [correct_gband, Inp.shape, h1, h2, h3]

/-- On four scalars the call corrects the single element. -/
theorem correct_gband_scalar_eq (log10 : Flt → Flt) (c : Flt) (a : ℤ) (m f : Flt) :
    correct_gband log10 (.scalar c) (.scalar a) (.scalar m) (.scalar f) =
      .ok (.scalar (correct_elem log10 ⟨c, a, m, f⟩).1,
           .scalar (correct_elem log10 ⟨c, a, m, f⟩).2) := rfl

/-- C8: whenever a batched sequence call succeeds, the scalar call on the four
values at index i returns exactly element i of the batched outputs: the two call
paths agree (exact equality, which implies any floating-point tolerance). -/
theorem C8_scalar_vector_consistency (log10 : Flt → Flt) (cs : List Flt)
    (sts : List ℤ) (ms fs gmags gfluxes : List Flt)
    (hbatch : correct_gband log10 (.arr cs) (.arr sts) (.arr ms) (.arr fs) =
      .ok (.arr gmags, .arr gfluxes))
    (i : Nat) (hc : i < cs.length) (ha : i < sts.length) (hm : i < ms.length)
    (hf : i < fs.length) (hg : i < gmags.length) (hx : i < gfluxes.length) :
    correct_gband log10 (.scalar (cs.get ⟨i, hc⟩)) (.scalar (sts.get ⟨i, ha⟩))
      (.scalar (ms.get ⟨i, hm⟩)) (.scalar (fs.get ⟨i, hf⟩)) =
      .ok (.scalar (gmags.get ⟨i, hg⟩), .scalar (gfluxes.get ⟨i, hx⟩)) := by
  have hlen : cs.length = sts.length ∧ sts.length = ms.length ∧
      ms.length = fs.length := by
    by_contra h
    have hcond : ¬ ((Inp.arr cs : Inp Flt).shape == (Inp.arr sts : Inp ℤ).shape
        && (Inp.arr sts : Inp ℤ).shape == (Inp.arr ms : Inp Flt).shape
        && (Inp.arr ms : Inp Flt).shape == (Inp.arr fs : Inp Flt).shape) = true := by
      simp only [Inp.shape, Bool.and_eq_true, beq_iff_eq, Option.some.injEq]
      intro hcnd
      exact h ⟨hcnd.1.1, hcnd.1.2, hcnd.2⟩
    rw [correct_gband, if_neg hcond] at hbatch
    simp at hbatch
  obtain ⟨h1, h2, h3⟩ := hlen
  rw [correct_gband_arr_eq log10 cs sts ms fs h1 h2 h3] at hbatch
  simp only [Except.ok.injEq, Prod.mk.injEq, Inp.arr.injEq] at hbatch
  obtain ⟨hg1, hg2⟩ := hbatch
  subst hg1
  subst hg2
  rw [correct_gband_scalar_eq]
  have hz : i < (zip4 cs sts ms fs).length := by
    rw [zip4_length cs sts ms fs h1 h2 h3]
    exact hc
  have e1 := get_map_eq (zip4 cs sts ms fs) (fun s => (correct_elem log10 s).1) i hg hz
  have e2 := get_map_eq (zip4 cs sts ms fs) (fun s => (correct_elem log10 s).2) i hx hz
  rw [e1, e2, zip4_get cs sts ms fs i hc ha hm hf hz]

/-- Witness for C8 on a two-element batch at index 1. -/
theorem C8_witness :
    correct_gband (fun _ => .val 0) (.scalar ([Flt.nan, .val 1].get ⟨1, by decide⟩))
      (.scalar ([31, 95].get ⟨1, by decide⟩))
      (.scalar ([Flt.val 12, .val 18].get ⟨1, by decide⟩))
      (.scalar ([Flt.val 7, .val 10].get ⟨1, by decide⟩)) =
      .ok (.scalar (((zip4 [Flt.nan, .val 1] [31, 95] [Flt.val 12, .val 18]
              [Flt.val 7, .val 10]).map
            fun s => (correct_elem (fun _ => .val 0) s).1).get ⟨1, by decide⟩),
          .scalar (((zip4 [Flt.nan, .val 1] [31, 95] [Flt.val 12, .val 18]
              [Flt.val 7, .val 10]).map
            fun s => (correct_elem (fun _ => .val 0) s).2).get ⟨1, by decide⟩)) :=
  C8_scalar_vector_consistency (fun _ => .val 0) [Flt.nan, .val 1] [31, 95]
    [Flt.val 12, .val 18] [Flt.val 7, .val 10] _ _ rfl 1 (by decide) (by decide)
    (by decide) (by decide) (by decide) (by decide)

/-- C6 (amended): for colour 0.5, solution type 95, magnitude 18, flux 1000 the
faint cubic gives the factor exactly 0.99766875, the corrected flux is exactly
997.66875, and the corrected magnitude is 18 - 2.5 log10 0.99766875, which is
approximately 18.00253. -/
theorem C6_scenario_exact (log10 : Flt → Flt) :
    correction_factor ⟨.val 0.5, 95, .val 18, .val 1000⟩ = .val 0.99766875 ∧
    gflux_corrected ⟨.val 0.5, 95, .val 18, .val 1000⟩ = .val 997.66875 ∧
    gmag_corrected log10 ⟨.val 0.5, 95, .val 18, .val 1000⟩ =
      Flt.sub (.val 18) (Flt.mul (.val 2.5) (log10 (.val 0.99766875))) := by
  have hfac : correction_factor ⟨.val 0.5, 95, .val 18, .val 1000⟩ =
      .val 0.99766875 := by
    norm_num [correction_factor, faint_correct, bright_correct, do_not_correct,
      Flt.isNaN, Flt.ltB, Flt.leB, bp_rp_c, clipQ, faint_poly, bright_poly]
  refine ⟨hfac, ?_, ?_⟩
  · rw [gflux_corrected, hfac]
    norm_num [Flt.mul]
  · rw [gmag_corrected, hfac]
